import Mathlib

/-
Verification of the SAML self-service strategy and handler of this repository.

The Go sources embedded here are:
  selfservice/strategy/saml/strategy/strategy.go  (strategy: handleCallback,
    forwardError, handleError, getAttributesFromAssertion, validateFlow,
    provider, plus the embedded handler variant with the global lazy
    middleware: loginWithIdp, instantiateMiddleware)
  selfservice/flow/saml/handler.go  (handler: loginWithIdp, serveAcs)

External collaborators (persistence stores, session manager, the crewjam
SAML engine, the UI container package) are modelled as explicit parameters;
everything the control flow of the source decides is transcribed directly.
-/

namespace Kratos

/-- Error values observed by the embedded code.  Concrete Go errors carry
messages and stacks; here each class of error is a constructor, with a
numeric code distinguishing distinct errors of the same class. -/
inductive Err
  | zeroFlowId
  | apiFlowNotSupported
  | flowInvalid (code : Nat)
  | lookup (code : Nat)
  | session (code : Nat)
  | config (code : Nat)
  | protocol (code : Nat)
  | claimsMapping (code : Nat)
deriving DecidableEq

deriving instance DecidableEq for Except

/-- Execution mode of a self-service flow (flow.TypeBrowser or flow.TypeAPI). -/
inductive FlowType
  | browser
  | api
deriving DecidableEq

/-- Fields of a registration.Flow or login.Flow that validateFlow consults:
its execution mode, and the result of its own Valid() check. -/
structure BrowserFlow where
  ftype : FlowType
  valid : Except Err Unit
deriving DecidableEq

/-- Fields of a settings.Flow that validateFlow consults: its execution mode,
and its Valid(session) check, which takes the active session (a session is
modelled by a numeric identifier). -/
structure SettingsFlowR where
  ftype : FlowType
  valid : Nat → Except Err Unit

/-- The flow value returned by validateFlow, tagged by the store that owns it
(registration, login or settings persister). -/
inductive FoundFlow
  | reg (f : BrowserFlow)
  | login (f : BrowserFlow)
  | settings (f : SettingsFlowR)

/-- External collaborators of validateFlow: the three flow persisters and the
session manager fetch, each already applied to the ambient context/request. -/
structure ValidateDeps where
  regStore : Nat → Except Err BrowserFlow
  loginStore : Nat → Except Err BrowserFlow
  settingsStore : Nat → Except Err SettingsFlowR
  sessionFetch : Except Err Nat

/-- Transcription of Strategy.validateFlow (strategy.go lines 287-332).
The Go function returns the pair (flow.Flow, error) where either component
may be nil; the pair of options mirrors that.  Flow ids are modelled as
naturals with 0 as the zero UUID. -/
def validateFlow (d : ValidateDeps) (rid : Nat) : Option FoundFlow × Option Err :=
  if rid = 0 then
    (none, some Err.zeroFlowId)
  else
    match d.regStore rid with
    | Except.ok ar =>
      if ar.ftype ≠ FlowType.browser then
        (some (FoundFlow.reg ar), some Err.apiFlowNotSupported)
      else
        match ar.valid with
        | Except.error e => (some (FoundFlow.reg ar), some e)
        | Except.ok _ => (some (FoundFlow.reg ar), none)
    | Except.error _ =>
      match d.loginStore rid with
      | Except.ok ar =>
        if ar.ftype ≠ FlowType.browser then
          (some (FoundFlow.login ar), some Err.apiFlowNotSupported)
        else
          match ar.valid with
          | Except.error e => (some (FoundFlow.login ar), some e)
          | Except.ok _ => (some (FoundFlow.login ar), none)
      | Except.error _ =>
        match d.settingsStore rid with
        | Except.ok ar =>
          if ar.ftype ≠ FlowType.browser then
            (some (FoundFlow.settings ar), some Err.apiFlowNotSupported)
          else
            match d.sessionFetch with
            | Except.error e => (some (FoundFlow.settings ar), some e)
            | Except.ok sess =>
              match ar.valid sess with
              | Except.error e => (some (FoundFlow.settings ar), some e)
              | Except.ok _ => (some (FoundFlow.settings ar), none)
        | Except.error e => (none, some e)

/-- Concrete dependency set in which no store holds the flow id: every lookup
fails with a distinct store error. -/
def depsAllMiss : ValidateDeps where
  regStore := fun _ => Except.error (Err.lookup 1)
  loginStore := fun _ => Except.error (Err.lookup 2)
  settingsStore := fun _ => Except.error (Err.lookup 3)
  sessionFetch := Except.error (Err.session 0)

/-- Concrete dependency set in which only the registration store holds the id,
as a flow of API type whose own validity check would fail. -/
def depsRegApi : ValidateDeps where
  regStore := fun _ => Except.ok { ftype := FlowType.api, valid := Except.error (Err.flowInvalid 9) }
  loginStore := fun _ => Except.error (Err.lookup 2)
  settingsStore := fun _ => Except.error (Err.lookup 3)
  sessionFetch := Except.error (Err.session 0)

/-- Concrete dependency set in which only the settings store holds the id, as
an API-type flow, while the session fetch fails: used to show the API-type
check fires before any session error is reported. -/
def depsSettingsApiNoSession : ValidateDeps where
  regStore := fun _ => Except.error (Err.lookup 1)
  loginStore := fun _ => Except.error (Err.lookup 2)
  settingsStore := fun _ => Except.ok { ftype := FlowType.api, valid := fun _ => Except.ok () }
  sessionFetch := Except.error (Err.session 7)

/-- Concrete dependency set in which only the settings store holds the id, as
a browser-type flow, while the session fetch fails. -/
def depsSettingsBrowserNoSession : ValidateDeps where
  regStore := fun _ => Except.error (Err.lookup 1)
  loginStore := fun _ => Except.error (Err.lookup 2)
  settingsStore := fun _ => Except.ok { ftype := FlowType.browser, valid := fun _ => Except.ok () }
  sessionFetch := Except.error (Err.session 7)

/-- SAML attribute of a parsed assertion: friendly name, raw name and the
string values carried by the attribute (crewjam saml Attribute). -/
structure SamlAttribute where
  friendlyName : String
  name : String
  values : List String
deriving DecidableEq

/-- Attribute statement of a parsed assertion. -/
structure AttributeStatement where
  attributes : List SamlAttribute
deriving DecidableEq

/-- Parsed assertion: the attribute statements it carries. -/
structure Assertion where
  attributeStatements : List AttributeStatement
deriving DecidableEq

/-- Claim key chosen by getAttributesFromAssertion for one attribute: the
friendly name when non-empty, the raw name otherwise (strategy.go lines
187-190). -/
def claimNameOf (attr : SamlAttribute) : String :=
  if attr.friendlyName = "" then attr.name else attr.friendlyName

/-- The empty Go map of type map[string][]string, as a total function: a
missing key reads as the empty list. -/
def emptyAttributes : String → List String := fun _ => []

/-- One Go statement attributes[k] = append(attributes[k], v). -/
def mapAppend (m : String → List String) (k v : String) : String → List String :=
  fun q => if q = k then m k ++ [v] else m q

/-- Inner loop of getAttributesFromAssertion over the values of one
attribute. -/
def extractAttr (m : String → List String) (attr : SamlAttribute) : String → List String :=
  attr.values.foldl (fun m v => mapAppend m (claimNameOf attr) v) m

/-- Middle loop of getAttributesFromAssertion over the attributes of one
statement. -/
def extractStmt (m : String → List String) (st : AttributeStatement) : String → List String :=
  st.attributes.foldl extractAttr m

/-- Outer loop of getAttributesFromAssertion over all attribute statements
(strategy.go lines 183-195). -/
def extractAttributes (a : Assertion) : String → List String :=
  a.attributeStatements.foldl extractStmt emptyAttributes

/-- All (claim key, value) pairs of one attribute, in encounter order. -/
def attrPairs (attr : SamlAttribute) : List (String × String) :=
  attr.values.map (fun v => (claimNameOf attr, v))

/-- All (claim key, value) pairs of one statement, in encounter order. -/
def stmtPairs (st : AttributeStatement) : List (String × String) :=
  st.attributes.foldr (fun attr acc => attrPairs attr ++ acc) []

/-- All (claim key, value) pairs of an assertion, in encounter order. -/
def assertionPairs (a : Assertion) : List (String × String) :=
  a.attributeStatements.foldr (fun st acc => stmtPairs st ++ acc) []

/-- Values of the pairs carrying key k, in order, with no deduplication. -/
def filterPairs (k : String) : List (String × String) → List String
  | [] => []
  | p :: ps => if p.1 = k then p.2 :: filterPairs k ps else filterPairs k ps

/-- Replay of a pair list into a map by repeated mapAppend. -/
def applyPairs (m : String → List String) (ps : List (String × String)) : String → List String :=
  ps.foldl (fun m p => mapAppend m p.1 p.2) m

/-- UI node of a flow container: either a named input with a value or the
continue-with-provider submit affordance. -/
inductive UINode
  | input (group : String) (name : String) (value : String)
  | providerSubmit (group : String) (provider : String)
deriving DecidableEq

/-- Node group of the SAML strategy (node.SAMLGroup). -/
def samlGroup : String := "saml"

/-- Node group passed to NodesFromJSONSchema and UpdateNodeValuesFromJSON in
handleError (node.OpenIDConnectGroup). -/
def oidcGroup : String := "oidc"

/-- UI container of a flow: its nodes and its CSRF token. -/
structure Container where
  nodes : List UINode
  csrf : String
deriving DecidableEq

/-- Modelled from the spec: container.UpdateNodeValuesFromJSON lives in the
ui/container package, which is not under src/; per the spec it pre-populates
the trait input nodes of the given group from the staged trait data, leaving
every other node unchanged. -/
def updateNode (traits : List (String × String)) (group : String) : UINode → UINode
  | UINode.input g nm v =>
    if g = group then
      match traits.lookup nm with
      | some tv => UINode.input g nm tv
      | none => UINode.input g nm v
    else UINode.input g nm v
  | other => other

/-- Pointwise application of updateNode over the nodes of the container. -/
def updateNodeValuesFromJSON (traits : List (String × String)) (group : String)
    (ns : List UINode) : List UINode :=
  ns.map (updateNode traits group)

/-- Modelled from the spec: AddProvider is declared outside src/; per the
spec it appends exactly one continue-with-provider node to the container. -/
def addProvider (c : Container) (provider : String) : Container :=
  { c with nodes := c.nodes ++ [UINode.providerSubmit samlGroup provider] }

/-- Modelled from the spec: Container.SetCSRF is declared outside src/; per
the spec it reissues the CSRF token of the container. -/
def setCSRF (c : Container) (tok : String) : Container :=
  { c with csrf := tok }

/-- True on the continue-with-provider nodes. -/
def isProviderNode : UINode → Bool
  | UINode.providerSubmit _ _ => true
  | _ => false

/-- The concrete flow value handed to handleError and forwardError, one
constructor per Go flow type of the switch statements. -/
inductive HandledFlow
  | loginFlow (ui : Container)
  | registrationFlow (ui : Container)
  | settingsFlow (ui : Container)
deriving DecidableEq

/-- Transcription of Strategy.handleError (strategy.go lines 119-150).  The
collaborators are passed in: genCsrf is the token from GenerateCSRFToken,
schemaNodes the result of container.NodesFromJSONSchema on the identity
schema, traits the staged trait data (nil or present), e0 the incoming
error.  The result is the mutated flow and the returned error. -/
def handleError (genCsrf : String) (schemaNodes : Except Err (List UINode))
    (f : HandledFlow) (provider : String) (traits : Option (List (String × String)))
    (e0 : Err) : HandledFlow × Err :=
  match f with
  | HandledFlow.registrationFlow ui =>
    let ui1 : Container := { ui with nodes := [] }
    let ui2 := setCSRF ui1 genCsrf
    let ui3 := addProvider ui2 provider
    match traits with
    | none => (HandledFlow.registrationFlow ui3, e0)
    | some ts =>
      match schemaNodes with
      | Except.error se => (HandledFlow.registrationFlow ui3, se)
      | Except.ok tns =>
        let ui4 : Container := { ui3 with nodes := ui3.nodes ++ tns }
        let ui5 : Container := { ui4 with nodes := updateNodeValuesFromJSON ts oidcGroup ui4.nodes }
        (HandledFlow.registrationFlow ui5, e0)
  | g => (g, e0)

/-- The WriteFlowError call emitted by forwardError: which flow error handler
is invoked and with which flow argument (nil allowed for the login one). -/
inductive ErrorHandlerCall
  | loginWriteFlowError (f : Option Container) (e : Err)
  | registrationWriteFlowError (f : Container) (e : Err)
deriving DecidableEq

/-- Transcription of Strategy.forwardError (strategy.go lines 233-243): a
login flow goes to the login flow error handler, a registration flow to the
registration one, anything else (settings flow or no flow) falls to the
default branch, the login handler with a nil flow. -/
def forwardError (f : Option HandledFlow) (e : Err) : ErrorHandlerCall :=
  match f with
  | some (HandledFlow.loginFlow ui) => ErrorHandlerCall.loginWriteFlowError (some ui) e
  | some (HandledFlow.registrationFlow ui) => ErrorHandlerCall.registrationWriteFlowError ui e
  | _ => ErrorHandlerCall.loginWriteFlowError none e

/-- Observable effect of the callback handler: the engine OnError call made
inside getAttributesFromAssertion, or a forwardError call. -/
inductive CbAction
  | onError (e : Err)
  | forward (c : ErrorHandlerCall)
deriving DecidableEq

/-- The possibleRequestIDs slice built by getAttributesFromAssertion and
serveAcs: the empty string first when IDP-initiated flows are allowed, then
the tracked request ids. -/
def possibleRequestIDs (allowIDPInitiated : Bool) (tracked : List String) : List String :=
  (if allowIDPInitiated then [""] else []) ++ tracked

/-- Transcription of Strategy.getAttributesFromAssertion (strategy.go lines
163-199): parse the response against the accepted request ids; on failure
call the engine OnError and return the error; on success walk every
attribute statement and attribute, keying by friendly name when non-empty
else raw name, appending values in encounter order. -/
def getAttributesFromAssertion (allowIDPInitiated : Bool) (tracked : List String)
    (parseResponse : List String → Except Err Assertion) :
    List CbAction × Except Err (String → List String) :=
  match parseResponse (possibleRequestIDs allowIDPInitiated tracked) with
  | Except.error e => ([CbAction.onError e], Except.error e)
  | Except.ok a => ([], Except.ok (extractAttributes a))

/-- Outcome of handleCallback: normal termination with the actions emitted,
or the nil pointer dereference of the expression which evaluates the nil
flow pointer returned by processLoginOrRegister. -/
inductive CallbackOutcome
  | done (acts : List CbAction)
  | nilFlowDereference (acts : List CbAction)
deriving DecidableEq

/-- Transcription of Strategy.handleCallback (strategy.go lines 201-231).
The stages after attribute extraction are passed as their results: the
provider resolution, the claims mapping, and the processLoginOrRegister
result, a pair of a possibly-nil flow pointer and a possibly-nil error.  In
the branch where the error is non-nil and the flow pointer nil, the source
evaluates *ff on the nil pointer, which is the nilFlowDereference outcome. -/
def handleCallback (allowIDPInitiated : Bool) (tracked : List String)
    (parseResponse : List String → Except Err Assertion)
    (providerRes : Except Err Nat)
    (claimsRes : Except Err Nat)
    (plr : Option HandledFlow × Option Err) : CallbackOutcome :=
  let ga := getAttributesFromAssertion allowIDPInitiated tracked parseResponse
  match ga.2 with
  | Except.error e => CallbackOutcome.done (ga.1 ++ [CbAction.forward (forwardError none e)])
  | Except.ok _ =>
    match providerRes with
    | Except.error e => CallbackOutcome.done (ga.1 ++ [CbAction.forward (forwardError none e)])
    | Except.ok _ =>
      match claimsRes with
      | Except.error e => CallbackOutcome.done (ga.1 ++ [CbAction.forward (forwardError none e)])
      | Except.ok _ =>
        match plr with
        | (some f, some e) =>
          CallbackOutcome.done (ga.1 ++ [CbAction.forward (forwardError (some f) e)])
        | (none, some _) => CallbackOutcome.nilFlowDereference ga.1
        | (_, none) => CallbackOutcome.done ga.1

/-- Error returned by the session manager fetch: the dedicated no-active-
session error (matched by errors.As) or any other error. -/
inductive SessErr
  | noActiveSessionFound
  | other (code : Nat)
deriving DecidableEq

/-- Result of SessionManager().FetchFromRequest. -/
inductive SessionFetch
  | ok (sid : Nat)
  | fail (e : SessErr)
deriving DecidableEq

/-- The error value held by the err variable after the fetch, nil on
success. -/
def fetchErrOf : SessionFetch → Option SessErr
  | SessionFetch.ok _ => none
  | SessionFetch.fail e => some e

/-- Response-writing action of a login-initiation handler. -/
inductive HttpAction
  | startAuthFlow
  | redirect (path : String)
  | onError (e : Option SessErr)
  | forwardErrorManagerSess (e : Option SessErr)
  | forwardErrorManagerInst (e : Err)
deriving DecidableEq

/-- Transcription of Handler.loginWithIdp of handler.go (lines 127-144): on
the no-active-session error, HandleStartAuthFlow; on any other error,
nothing; on success (a session exists), a redirect to the SelfPublicURL
path; and in every case an unconditional trailing OnError call with the
fetch error (nil included). -/
def loginWithIdpHandler (fetch : SessionFetch) (selfPublicURLPath : String) : List HttpAction :=
  (match fetch with
   | SessionFetch.fail SessErr.noActiveSessionFound => [HttpAction.startAuthFlow]
   | SessionFetch.fail (SessErr.other _) => []
   | SessionFetch.ok _ => [HttpAction.redirect selfPublicURLPath]) ++
  [HttpAction.onError (fetchErrOf fetch)]

/-- Transcription of the loginWithIdp of the handler variant embedded in
strategy.go (lines 497-521): when the global middleware is nil it first
instantiates it, forwarding any instantiation error to the error manager
without returning; then, when the session fetch fails with the no-active-
session error it starts the auth flow, when it fails with any other error it
redirects to the default return-to path, and when the fetch succeeds (a
session exists) it forwards the nil error to the error manager. -/
def loginWithIdpStrategy (mwInitialized : Bool) (instantiateErr : Option Err)
    (fetch : SessionFetch) (defaultReturnToPath : String) : List HttpAction :=
  (if mwInitialized then []
   else
     match instantiateErr with
     | some e => [HttpAction.forwardErrorManagerInst e]
     | none => []) ++
  (match fetch with
   | SessionFetch.fail SessErr.noActiveSessionFound => [HttpAction.startAuthFlow]
   | SessionFetch.fail (SessErr.other _) => [HttpAction.redirect defaultReturnToPath]
   | SessionFetch.ok _ => [HttpAction.forwardErrorManagerSess none])

/-- Shared mutable state of the lazy middleware initialization of the
handler variant in strategy.go: the global samlMiddleware variable, a
fresh-handle counter, and the number of constructions performed (each one a
metadata fetch). -/
structure MwState where
  samlMiddleware : Option Nat
  nextHandle : Nat
  constructions : Nat
deriving DecidableEq

/-- Program counter of one request thread running loginWithIdp: check the
global for nil, construct the middleware, write the global, then use the
global (observing the handle it reads). -/
inductive MwPC
  | start
  | construct
  | write (h : Nat)
  | use
  | done (observed : Option Nat)
deriving DecidableEq

/-- One small step of a request thread against the shared state.  The
source has no synchronization around the nil check (strategy.go lines
500-504) nor around the final global write (line 658), so the check, the
construction and the write are separate steps that other threads can
interleave with. -/
def mwStep (s : MwState) (p : MwPC) : MwState × MwPC :=
  match p with
  | MwPC.start => (s, if s.samlMiddleware = none then MwPC.construct else MwPC.use)
  | MwPC.construct =>
    ({ s with nextHandle := s.nextHandle + 1, constructions := s.constructions + 1 },
     MwPC.write s.nextHandle)
  | MwPC.write h => ({ s with samlMiddleware := some h }, MwPC.use)
  | MwPC.use => (s, MwPC.done s.samlMiddleware)
  | MwPC.done o => (s, MwPC.done o)

/-- Run a schedule: at each tick the named thread takes one step. -/
def mwRun : List Nat → MwState × List MwPC → MwState × List MwPC
  | [], st => st
  | i :: rest, (s, ts) =>
    match ts[i]? with
    | none => mwRun rest (s, ts)
    | some p =>
      let sp := mwStep s p
      mwRun rest (sp.1, ts.set i sp.2)

/-- Initial state: uninitialized global middleware and n request threads
about to run loginWithIdp. -/
def mwInit (n : Nat) : MwState × List MwPC :=
  ({ samlMiddleware := none, nextHandle := 0, constructions := 0 },
   List.replicate n MwPC.start)

/-- Per-tenant SAML provider configuration entry (the fields read by the
embedded code). -/
structure SAMLProviderCfg where
  idpMetadataURL : String
  idpSSOURL : String
  publicCertPath : String
  privateKeyPath : String
deriving DecidableEq

/-- Decoded strategy configuration: the list of SAML providers. -/
structure ConfigurationCollection where
  samlProviders : List SAMLProviderCfg
deriving DecidableEq

/-- Go slice indexing with an Int index and no bounds check: none models the
out-of-range runtime panic. -/
def goIndex {α : Type} (l : List α) (i : Int) : Option α :=
  if 0 ≤ i then l[i.toNat]? else none

/-- Outcome of provider resolution or middleware construction: a handle, an
error properly returned, or a runtime panic at a slice index. -/
inductive ProviderOutcome
  | ok (p : Nat)
  | err (e : Err)
  | indexPanic (i : Int)
deriving DecidableEq

/-- Transcription of Strategy.provider (strategy.go lines 245-268): decode
the configuration, read SAMLProviders[0] with no bounds check, parse its two
URLs, and build the provider.  decodeResult stands for s.Config, parseURL
for url.Parse and mkProvider for c.Provider. -/
def providerResolve (decodeResult : Except Err ConfigurationCollection)
    (parseURL : String → Except Err String)
    (mkProvider : String → String → Except Err Nat) : ProviderOutcome :=
  match decodeResult with
  | Except.error e => ProviderOutcome.err e
  | Except.ok c =>
    match goIndex c.samlProviders 0 with
    | none => ProviderOutcome.indexPanic 0
    | some p0 =>
      match parseURL p0.idpMetadataURL with
      | Except.error e => ProviderOutcome.err e
      | Except.ok mu =>
        match parseURL p0.idpSSOURL with
        | Except.error e => ProviderOutcome.err e
        | Except.ok su =>
          match mkProvider mu su with
          | Except.error e => ProviderOutcome.err e
          | Except.ok p => ProviderOutcome.ok p

/-- Transcription of the head of instantiateMiddleware of the handler
variant in strategy.go (lines 523-548): decode the configuration, read
SAMLProviders[len-1] with no bounds check, load the keypair from its cert
and key paths; the remainder of the construction is abstracted into rest. -/
def instantiateMiddlewareResolve (decodeResult : Except Err ConfigurationCollection)
    (loadKeyPair : String → String → Except Err Nat)
    (rest : Nat → SAMLProviderCfg → ProviderOutcome) : ProviderOutcome :=
  match decodeResult with
  | Except.error e => ProviderOutcome.err e
  | Except.ok c =>
    match goIndex c.samlProviders ((c.samlProviders.length : Int) - 1) with
    | none => ProviderOutcome.indexPanic ((c.samlProviders.length : Int) - 1)
    | some plast =>
      match loadKeyPair plast.publicCertPath plast.privateKeyPath with
      | Except.error e => ProviderOutcome.err e
      | Except.ok kp => rest kp plast

/-- Observable effect of the standalone ACS handler serveAcs. -/
inductive AcsAction
  | onError (e : Err)
  | createSessionFromAssertion (a : Option Assertion)
deriving DecidableEq

/-- Transcription of Handler.serveAcs (handler.go lines 146-166): build the
accepted request ids, parse the response; on error call the middleware
OnError WITHOUT returning, then unconditionally call
CreateSessionFromAssertion with the assertion, which is nil on the error
path. -/
def serveAcs (allowIDPInitiated : Bool) (tracked : List String)
    (parseResponse : List String → Except Err Assertion) : List AcsAction :=
  match parseResponse (possibleRequestIDs allowIDPInitiated tracked) with
  | Except.error e => [AcsAction.onError e, AcsAction.createSessionFromAssertion none]
  | Except.ok a => [AcsAction.createSessionFromAssertion (some a)]

/-- Concrete assertion with no attribute statements. -/
def emptyAssertion : Assertion := { attributeStatements := [] }

/-- Concrete assertion exercising the friendly-name fallback: one statement
holding an attribute with empty friendly name and raw name uid carrying two
values, and an attribute with friendly name email and a differing raw
name. -/
def sampleAssertion : Assertion :=
  { attributeStatements :=
      [ { attributes :=
            [ { friendlyName := "", name := "uid", values := ["u1", "u2"] }
            , { friendlyName := "email", name := "mail", values := ["a"] } ] } ] }

/-- Concrete decoded configuration whose provider list is empty. -/
def emptyCfg : ConfigurationCollection := { samlProviders := [] }

/-- Concrete registration-flow container with a stale node and an old CSRF
token. -/
def c6OldUI : Container :=
  { nodes := [UINode.input oidcGroup "traits.x" "old"], csrf := "t0" }

/-- Concrete trait nodes regenerated from the identity schema. -/
def c6SchemaNodes : List UINode := [UINode.input oidcGroup "traits.email" ""]

/-- Concrete staged trait data. -/
def c6Traits : List (String × String) := [("traits.email", "alice")]

-- ======================= THEOREMS =======================

/-- C4: for every non-zero flow id, validateFlow probes the stores in the
fixed order registration, login, settings and returns the first flow found;
when no store holds the id it returns the lookup error of the settings store,
the last one probed; hence when exactly one store holds the id, the returned
flow is that store flow. -/
theorem C4_validateFlow_probe_order (d : ValidateDeps) (rid : Nat) (hrid : rid ≠ 0) :
    (∀ e1 e2 e3, d.regStore rid = Except.error e1 → d.loginStore rid = Except.error e2 →
      d.settingsStore rid = Except.error e3 → validateFlow d rid = (none, some e3))
    ∧ (∀ f, d.regStore rid = Except.ok f →
      (validateFlow d rid).1 = some (FoundFlow.reg f))
    ∧ (∀ e1 f, d.regStore rid = Except.error e1 → d.loginStore rid = Except.ok f →
      (validateFlow d rid).1 = some (FoundFlow.login f))
    ∧ (∀ e1 e2 f, d.regStore rid = Except.error e1 → d.loginStore rid = Except.error e2 →
      d.settingsStore rid = Except.ok f →
      (validateFlow d rid).1 = some (FoundFlow.settings f)) := by
  refine ⟨?_, ?_, ?_, ?_⟩
  · intro e1 e2 e3 h1 h2 h3
    unfold validateFlow
    rw [if_neg hrid, h1, h2, h3]
  · intro f h1
    unfold validateFlow
    rw [if_neg hrid, h1]
    rcases f with ⟨ft, v⟩
    cases ft <;> rcases v with e | u <;> rfl
  · intro e1 f h1 h2
    unfold validateFlow
    rw [if_neg hrid, h1, h2]
    rcases f with ⟨ft, v⟩
    cases ft <;> rcases v with e | u <;> rfl
  · intro e1 e2 f h1 h2 h3
    unfold validateFlow
    rw [if_neg hrid, h1, h2, h3]
    rcases f with ⟨ft, v⟩
    cases ft
    · dsimp only
      cases hs : d.sessionFetch
      · rfl
      · dsimp only
        cases hv : v _ <;> rfl
    · rfl

/-- Witness for C4 at concrete inputs: flow id 1 is non-zero; with all three
stores missing the id, validateFlow returns the settings-store lookup error;
with only the registration store holding it, the registration flow comes
back. -/
theorem C4_validateFlow_probe_order_witness :
    (1 : Nat) ≠ 0
    ∧ validateFlow depsAllMiss 1 = (none, some (Err.lookup 3))
    ∧ (validateFlow depsRegApi 1).1
        = some (FoundFlow.reg { ftype := FlowType.api, valid := Except.error (Err.flowInvalid 9) }) :=
  ⟨by decide,
   (C4_validateFlow_probe_order depsAllMiss 1 (by decide)).1
     (Err.lookup 1) (Err.lookup 2) (Err.lookup 3) rfl rfl rfl,
   (C4_validateFlow_probe_order depsRegApi 1 (by decide)).2.1
     { ftype := FlowType.api, valid := Except.error (Err.flowInvalid 9) } rfl⟩

/-- C8: a flow found in any of the three stores whose execution mode is not
browser makes validateFlow return the distinct APIFlowNotSupported error, and
this happens whatever the outcome of the flow validity check and of the
session fetch would have been, so the mode check precedes both. -/
theorem C8_api_flow_rejected (d : ValidateDeps) (rid : Nat) (hrid : rid ≠ 0) :
    (∀ ar, d.regStore rid = Except.ok ar → ar.ftype ≠ FlowType.browser →
      validateFlow d rid = (some (FoundFlow.reg ar), some Err.apiFlowNotSupported))
    ∧ (∀ e1 ar, d.regStore rid = Except.error e1 → d.loginStore rid = Except.ok ar →
      ar.ftype ≠ FlowType.browser →
      validateFlow d rid = (some (FoundFlow.login ar), some Err.apiFlowNotSupported))
    ∧ (∀ e1 e2 ar, d.regStore rid = Except.error e1 → d.loginStore rid = Except.error e2 →
      d.settingsStore rid = Except.ok ar → ar.ftype ≠ FlowType.browser →
      validateFlow d rid = (some (FoundFlow.settings ar), some Err.apiFlowNotSupported)) := by
  refine ⟨?_, ?_, ?_⟩
  · intro ar h1 hft
    unfold validateFlow
    rw [if_neg hrid, h1]
    dsimp only
    rw [if_pos hft]
  · intro e1 ar h1 h2 hft
    unfold validateFlow
    rw [if_neg hrid, h1, h2]
    dsimp only
    rw [if_pos hft]
  · intro e1 e2 ar h1 h2 h3 hft
    unfold validateFlow
    rw [if_neg hrid, h1, h2, h3]
    dsimp only
    rw [if_pos hft]

/-- Witness for C8 at concrete inputs: an API-type registration flow with a
failing validity check is rejected with APIFlowNotSupported, not with its
validity error. -/
theorem C8_api_flow_rejected_witness :
    (1 : Nat) ≠ 0
    ∧ validateFlow depsRegApi 1
        = (some (FoundFlow.reg { ftype := FlowType.api, valid := Except.error (Err.flowInvalid 9) }),
           some Err.apiFlowNotSupported) :=
  ⟨by decide,
   (C8_api_flow_rejected depsRegApi 1 (by decide)).1
     { ftype := FlowType.api, valid := Except.error (Err.flowInvalid 9) } rfl (by decide)⟩

/-- C7 counterexample: the claim says that with no fetchable active session a
settings flow always fails with the session error regardless of flow content,
but an API-type settings flow fails with APIFlowNotSupported before any
session lookup, even though the session fetch would fail with session error
7. -/
theorem C7_settings_session_counterexample :
    (validateFlow depsSettingsApiNoSession 1).2 = some Err.apiFlowNotSupported
    ∧ (validateFlow depsSettingsApiNoSession 1).2 ≠ some (Err.session 7) :=
  ⟨rfl, by decide⟩

/-- C7 amended: only settings flows consult the session: a browser-type
settings flow with no fetchable session fails with the session fetch error
whatever its own validity check would say, while validation of a flow held by
the registration or login store is entirely independent of the session fetch
(no session lookup is performed for those flows). -/
theorem C7_settings_session_amended (d : ValidateDeps) (rid : Nat) (hrid : rid ≠ 0) :
    (∀ e1 e2 ar e, d.regStore rid = Except.error e1 → d.loginStore rid = Except.error e2 →
      d.settingsStore rid = Except.ok ar → ar.ftype = FlowType.browser →
      d.sessionFetch = Except.error e →
      validateFlow d rid = (some (FoundFlow.settings ar), some e))
    ∧ (∀ f sf sf', d.regStore rid = Except.ok f →
      validateFlow ⟨d.regStore, d.loginStore, d.settingsStore, sf⟩ rid
        = validateFlow ⟨d.regStore, d.loginStore, d.settingsStore, sf'⟩ rid)
    ∧ (∀ e1 f sf sf', d.regStore rid = Except.error e1 → d.loginStore rid = Except.ok f →
      validateFlow ⟨d.regStore, d.loginStore, d.settingsStore, sf⟩ rid
        = validateFlow ⟨d.regStore, d.loginStore, d.settingsStore, sf'⟩ rid) := by
  refine ⟨?_, ?_, ?_⟩
  · intro e1 e2 ar e h1 h2 h3 hft hs
    unfold validateFlow
    rw [if_neg hrid, h1, h2, h3]
    dsimp only
    rw [if_neg (fun hne => hne hft), hs]
  · intro f sf sf' h1
    unfold validateFlow
    rw [if_neg hrid, if_neg hrid]
    dsimp only
    rw [h1]
  · intro e1 f sf sf' h1 h2
    unfold validateFlow
    rw [if_neg hrid, if_neg hrid]
    dsimp only
    rw [h1, h2]

/-- Witness for C7 amended at concrete inputs: a browser-type settings flow
with session fetch failing with session error 7 fails with exactly that
error. -/
theorem C7_settings_session_amended_witness :
    (1 : Nat) ≠ 0
    ∧ validateFlow depsSettingsBrowserNoSession 1
        = (some (FoundFlow.settings { ftype := FlowType.browser, valid := fun _ => Except.ok () }),
           some (Err.session 7)) :=
  ⟨by decide,
   (C7_settings_session_amended depsSettingsBrowserNoSession 1 (by decide)).1
     (Err.lookup 1) (Err.lookup 2)
     { ftype := FlowType.browser, valid := fun _ => Except.ok () }
     (Err.session 7) rfl rfl rfl rfl rfl⟩

theorem applyPairs_append (xs ys : List (String × String)) (m : String → List String) :
    applyPairs m (xs ++ ys) = applyPairs (applyPairs m xs) ys := by
  unfold applyPairs
  rw [List.foldl_append]

theorem applyPairs_eval (ps : List (String × String)) :
    ∀ (m : String → List String) (k : String),
      applyPairs m ps k = m k ++ filterPairs k ps := by
  induction ps with
  | nil => intro m k; simp [applyPairs, filterPairs]
  | cons p ps ih =>
    intro m k
    rcases p with ⟨pk, pv⟩
    have hstep : applyPairs m ((pk, pv) :: ps) k = applyPairs (mapAppend m pk pv) ps k := rfl
    rw [hstep, ih]
    by_cases h : pk = k
    · subst h
      simp [mapAppend, filterPairs, List.append_assoc]
    · simp [mapAppend, filterPairs, h, Ne.symm h]

theorem extractAttr_eq (m : String → List String) (attr : SamlAttribute) :
    extractAttr m attr = applyPairs m (attrPairs attr) := by
  unfold extractAttr applyPairs attrPairs
  rw [List.foldl_map]

theorem foldl_extractAttr_eq (attrs : List SamlAttribute) :
    ∀ m, attrs.foldl extractAttr m
      = applyPairs m (attrs.foldr (fun attr acc => attrPairs attr ++ acc) []) := by
  induction attrs with
  | nil => intro m; rfl
  | cons attr attrs ih =>
    intro m
    rw [List.foldl_cons, List.foldr_cons, applyPairs_append, ← extractAttr_eq, ih]

theorem extractStmt_eq (m : String → List String) (st : AttributeStatement) :
    extractStmt m st = applyPairs m (stmtPairs st) :=
  foldl_extractAttr_eq st.attributes m

theorem foldl_extractStmt_eq (sts : List AttributeStatement) :
    ∀ m, sts.foldl extractStmt m
      = applyPairs m (sts.foldr (fun st acc => stmtPairs st ++ acc) []) := by
  induction sts with
  | nil => intro m; rfl
  | cons st sts ih =>
    intro m
    rw [List.foldl_cons, List.foldr_cons, applyPairs_append, ← extractStmt_eq, ih]

theorem extractAttributes_eq (a : Assertion) :
    extractAttributes a = applyPairs emptyAttributes (assertionPairs a) :=
  foldl_extractStmt_eq a.attributeStatements emptyAttributes

/-- C5: on a successfully parsed assertion, getAttributesFromAssertion emits
no error action and returns the mapping which, at every key k, holds exactly
the values of the visited (statement, attribute, value) triples whose claim
key (friendly name if non-empty, else raw name) is k, in encounter order and
with no deduplication; an assertion with zero attribute statements yields
the empty mapping. -/
theorem C5_getAttributesFromAssertion_extraction
    (allowIDPInitiated : Bool) (tracked : List String)
    (parseResponse : List String → Except Err Assertion) (a : Assertion)
    (hp : parseResponse (possibleRequestIDs allowIDPInitiated tracked) = Except.ok a) :
    ∃ m, getAttributesFromAssertion allowIDPInitiated tracked parseResponse
        = ([], Except.ok m)
      ∧ (∀ k, m k = filterPairs k (assertionPairs a))
      ∧ (a.attributeStatements = [] → ∀ k, m k = []) := by
  refine ⟨extractAttributes a, ?_, ?_, ?_⟩
  · unfold getAttributesFromAssertion
    rw [hp]
  · intro k
    rw [extractAttributes_eq, applyPairs_eval]
    rfl
  · intro h0 k
    rw [extractAttributes_eq]
    unfold assertionPairs
    rw [h0]
    rfl

/-- Witness for C5 at a concrete assertion: one statement holding an
attribute with empty friendly name and raw name uid (two values) and an
attribute with friendly name email and raw name mail (one value). -/
theorem C5_getAttributesFromAssertion_extraction_witness :
    ((fun _ => Except.ok sampleAssertion : List String → Except Err Assertion)
        (possibleRequestIDs false []) = Except.ok sampleAssertion)
    ∧ ∃ m, getAttributesFromAssertion false [] (fun _ => Except.ok sampleAssertion)
          = ([], Except.ok m)
        ∧ (∀ k, m k = filterPairs k (assertionPairs sampleAssertion))
        ∧ (sampleAssertion.attributeStatements = [] → ∀ k, m k = []) :=
  ⟨rfl, C5_getAttributesFromAssertion_extraction false []
    (fun _ => Except.ok sampleAssertion) sampleAssertion rfl⟩

theorem updateNode_kind (ts : List (String × String)) (g : String) (n : UINode) :
    isProviderNode (updateNode ts g n) = isProviderNode n := by
  cases n with
  | input gg nm v =>
    simp only [updateNode]
    split
    · cases List.lookup nm ts <;> rfl
    · rfl
  | providerSubmit gg p => rfl

theorem update_filter_length (ts : List (String × String)) (g : String) (ns : List UINode) :
    ((updateNodeValuesFromJSON ts g ns).filter isProviderNode).length
      = (ns.filter isProviderNode).length := by
  unfold updateNodeValuesFromJSON
  induction ns with
  | nil => rfl
  | cons n ns ih =>
    rw [List.map_cons, List.filter_cons, List.filter_cons, updateNode_kind]
    cases h : isProviderNode n <;> simp [h, ih]

/-- C6: on a registration flow, handleError discards every pre-existing node
(the result does not depend on them), reissues the CSRF token with the
freshly generated one (different from the prior one when the generator is
fresh), puts exactly one continue-with-provider node first after the reset,
and, when staged trait data is present and the schema produced the trait
nodes tns, the final nodes are that provider node followed by the
regenerated trait nodes pre-populated from the staged data. -/
theorem C6_handleError_registration_reset
    (genCsrf provider : String) (ui : Container)
    (schemaNodes : Except Err (List UINode)) (tns : List UINode)
    (traits : Option (List (String × String))) (e0 : Err)
    (hfresh : genCsrf ≠ ui.csrf)
    (hok : schemaNodes = Except.ok tns)
    (htns : ∀ n ∈ tns, isProviderNode n = false) :
    ∃ ui' : Container,
      handleError genCsrf schemaNodes (HandledFlow.registrationFlow ui) provider traits e0
        = (HandledFlow.registrationFlow ui', e0)
      ∧ ui'.csrf = genCsrf
      ∧ ui'.csrf ≠ ui.csrf
      ∧ ui'.nodes.head? = some (UINode.providerSubmit samlGroup provider)
      ∧ (ui'.nodes.filter isProviderNode).length = 1
      ∧ (∀ ns0 : List UINode,
          handleError genCsrf schemaNodes
              (HandledFlow.registrationFlow { nodes := ns0, csrf := ui.csrf })
              provider traits e0
            = handleError genCsrf schemaNodes (HandledFlow.registrationFlow ui)
              provider traits e0)
      ∧ (traits = none → ui'.nodes = [UINode.providerSubmit samlGroup provider])
      ∧ (∀ ts, traits = some ts →
          ui'.nodes = UINode.providerSubmit samlGroup provider
            :: updateNodeValuesFromJSON ts oidcGroup tns) := by
  subst hok
  rcases traits with _ | ts
  · refine ⟨{ nodes := [UINode.providerSubmit samlGroup provider], csrf := genCsrf },
      rfl, rfl, hfresh, rfl, rfl, fun ns0 => rfl, fun _ => rfl, fun ts h => nomatch h⟩
  · have h0 : ((updateNodeValuesFromJSON ts oidcGroup tns).filter isProviderNode).length = 0 := by
      rw [update_filter_length]
      rw [List.filter_eq_nil_iff.mpr]
      · rfl
      · intro n hn
        rw [htns n hn]
        exact Bool.false_ne_true
    refine ⟨{ nodes := UINode.providerSubmit samlGroup provider
                :: updateNodeValuesFromJSON ts oidcGroup tns, csrf := genCsrf },
      rfl, rfl, hfresh, rfl, ?_, ?_, ?_, ?_⟩
    · rw [List.filter_cons]
      simp [isProviderNode, h0]
    · intro ns0
      rfl
    · intro h
      exact Option.noConfusion h
    · intro ts2 h
      injection h with hh
      subst hh
      rfl

/-- Witness for C6 at concrete inputs: a container holding a stale node and
token t0, fresh token t1, one schema trait node, staged trait data for
traits.email. -/
theorem C6_handleError_registration_reset_witness :
    ("t1" : String) ≠ c6OldUI.csrf
    ∧ (Except.ok c6SchemaNodes : Except Err (List UINode)) = Except.ok c6SchemaNodes
    ∧ (∀ n ∈ c6SchemaNodes, isProviderNode n = false)
    ∧ ∃ ui' : Container,
        handleError "t1" (Except.ok c6SchemaNodes) (HandledFlow.registrationFlow c6OldUI)
            "idp1" (some c6Traits) (Err.lookup 0)
          = (HandledFlow.registrationFlow ui', Err.lookup 0)
        ∧ ui'.csrf = "t1"
        ∧ ui'.csrf ≠ c6OldUI.csrf
        ∧ ui'.nodes.head? = some (UINode.providerSubmit samlGroup "idp1")
        ∧ (ui'.nodes.filter isProviderNode).length = 1
        ∧ (∀ ns0 : List UINode,
            handleError "t1" (Except.ok c6SchemaNodes)
                (HandledFlow.registrationFlow { nodes := ns0, csrf := c6OldUI.csrf })
                "idp1" (some c6Traits) (Err.lookup 0)
              = handleError "t1" (Except.ok c6SchemaNodes)
                (HandledFlow.registrationFlow c6OldUI) "idp1" (some c6Traits) (Err.lookup 0))
        ∧ ((some c6Traits : Option (List (String × String))) = none →
            ui'.nodes = [UINode.providerSubmit samlGroup "idp1"])
        ∧ (∀ ts, (some c6Traits : Option (List (String × String))) = some ts →
            ui'.nodes = UINode.providerSubmit samlGroup "idp1"
              :: updateNodeValuesFromJSON ts oidcGroup c6SchemaNodes) :=
  ⟨by decide, rfl, by decide,
   C6_handleError_registration_reset "t1" "idp1" c6OldUI (Except.ok c6SchemaNodes)
     c6SchemaNodes (some c6Traits) (Err.lookup 0) (by decide) rfl (by decide)⟩

/-- C1: the claim says handleCallback forwards a processLoginOrRegister
error to the flow-typed error handler exactly once and then terminates
normally, the nil-flow-pointer case included; evaluating the transcription
at the failing input (nil flow pointer, non-nil error, all earlier stages
succeeding) shows the source instead dereferences the nil pointer, while
with a non-nil flow it does forward exactly once and return. -/
theorem C1_handleCallback_nil_flow_dereference :
    handleCallback false [] (fun _ => Except.ok emptyAssertion)
        (Except.ok 0) (Except.ok 0) (none, some (Err.lookup 0))
      = CallbackOutcome.nilFlowDereference []
    ∧ handleCallback false [] (fun _ => Except.ok emptyAssertion)
        (Except.ok 0) (Except.ok 0)
        (some (HandledFlow.loginFlow { nodes := [], csrf := "c" }), some (Err.lookup 0))
      = CallbackOutcome.done
          [CbAction.forward (ErrorHandlerCall.loginWriteFlowError
            (some { nodes := [], csrf := "c" }) (Err.lookup 0))] :=
  ⟨rfl, rfl⟩

/-- C2: the claim says concurrent first-use requests against the
uninitialized middleware perform exactly one construction and all observe
the same handle; running two request threads under the schedule in which
both pass the nil check before either writes the global shows the source
performing two constructions, with the two threads observing different
handles. -/
theorem C2_lazy_init_race_double_construction :
    (mwRun [0, 1, 0, 0, 0, 1, 1, 1] (mwInit 2)).1.constructions = 2
    ∧ (mwRun [0, 1, 0, 0, 0, 1, 1, 1] (mwInit 2)).2
        = [MwPC.done (some 0), MwPC.done (some 1)] :=
  ⟨rfl, rfl⟩

/-- C3: the claim says the SSO-initiation handler writes exactly one
response, a start-auth redirect without a session and a default-destination
redirect with one; the handler.go transcription writes a second response
through the unconditional trailing OnError on both paths, and the variant
embedded in strategy.go forwards a nil error to the error manager instead
of redirecting when a session exists. -/
theorem C3_loginWithIdp_response_writes :
    loginWithIdpHandler (SessionFetch.ok 5) "/"
        = [HttpAction.redirect "/", HttpAction.onError none]
    ∧ (loginWithIdpHandler (SessionFetch.ok 5) "/").length = 2
    ∧ loginWithIdpHandler (SessionFetch.fail SessErr.noActiveSessionFound) "/"
        = [HttpAction.startAuthFlow, HttpAction.onError (some SessErr.noActiveSessionFound)]
    ∧ loginWithIdpStrategy true none (SessionFetch.ok 5) "/home"
        = [HttpAction.forwardErrorManagerSess none] :=
  ⟨rfl, rfl, rfl, rfl⟩

/-- C9: a configuration that decodes successfully but holds an empty
SAMLProviders list makes Strategy.provider panic at index 0 and
instantiateMiddleware panic at index len-1 = -1, instead of returning a
configuration error. -/
theorem C9_empty_provider_list_panics
    (c : ConfigurationCollection) (hc : c.samlProviders = [])
    (parseURL : String → Except Err String)
    (mkProvider : String → String → Except Err Nat)
    (loadKeyPair : String → String → Except Err Nat)
    (rest : Nat → SAMLProviderCfg → ProviderOutcome) :
    providerResolve (Except.ok c) parseURL mkProvider = ProviderOutcome.indexPanic 0
    ∧ instantiateMiddlewareResolve (Except.ok c) loadKeyPair rest
        = ProviderOutcome.indexPanic (-1) := by
  constructor
  · unfold providerResolve
    dsimp only
    rw [hc]
    exact rfl
  · unfold instantiateMiddlewareResolve
    dsimp only
    rw [hc]
    exact rfl

/-- Witness for C9 at the concrete empty configuration. -/
theorem C9_empty_provider_list_panics_witness :
    emptyCfg.samlProviders = []
    ∧ providerResolve (Except.ok emptyCfg) (fun s => Except.ok s) (fun _ _ => Except.ok 0)
        = ProviderOutcome.indexPanic 0
    ∧ instantiateMiddlewareResolve (Except.ok emptyCfg) (fun _ _ => Except.ok 0)
        (fun kp _ => ProviderOutcome.ok kp)
        = ProviderOutcome.indexPanic (-1) :=
  ⟨rfl,
   (C9_empty_provider_list_panics emptyCfg rfl (fun s => Except.ok s) (fun _ _ => Except.ok 0)
     (fun _ _ => Except.ok 0) (fun kp _ => ProviderOutcome.ok kp)).1,
   (C9_empty_provider_list_panics emptyCfg rfl (fun s => Except.ok s) (fun _ _ => Except.ok 0)
     (fun _ _ => Except.ok 0) (fun kp _ => ProviderOutcome.ok kp)).2⟩

/-- C10: when ParseResponse fails, serveAcs invokes the middleware error
responder and, not returning, still proceeds to create a session from the
assertion, which on that path is nil: the error branch both writes the
error response and attempts the success action. -/
theorem C10_serveAcs_error_still_creates_session
    (allowIDPInitiated : Bool) (tracked : List String)
    (parseResponse : List String → Except Err Assertion) (e : Err)
    (hp : parseResponse (possibleRequestIDs allowIDPInitiated tracked) = Except.error e) :
    serveAcs allowIDPInitiated tracked parseResponse
      = [AcsAction.onError e, AcsAction.createSessionFromAssertion none] := by
  unfold serveAcs
  rw [hp]

/-- Witness for C10 at a concrete failing parse. -/
theorem C10_serveAcs_error_still_creates_session_witness :
    ((fun _ => Except.error (Err.protocol 3) : List String → Except Err Assertion)
        (possibleRequestIDs true []) = Except.error (Err.protocol 3))
    ∧ serveAcs true [] (fun _ => Except.error (Err.protocol 3))
        = [AcsAction.onError (Err.protocol 3), AcsAction.createSessionFromAssertion none] :=
  ⟨rfl,
   C10_serveAcs_error_still_creates_session true []
     (fun _ => Except.error (Err.protocol 3)) (Err.protocol 3) rfl⟩

end Kratos
